import Mathlib

/-
Verification of the natural-language specification of the `newrelic`
ambient TypeScript declaration file (src/types/newrelic/index.d.ts)
against the declarations themselves.

The repository contains no executable code: it is a single `.d.ts`
file of exported function signatures, interfaces and type aliases.
We therefore shallowly embed the TypeScript *type language* as a Lean
inductive, translate each declaration of the file into a concrete
value of that embedding (one Lean definition per declared symbol,
keeping the source's names), and settle each spec claim as a theorem
about those values.
-/

namespace NewRelic

mutual

/-- A TypeScript type, as used in the declaration file.  Unions are
encoded as a right-nested binary `union` in source order; literal
types that occur in the file (`false`, string literals) get their own
constructors; `named` is a reference to an interface or type alias
declared in the file; `tyvar` is a generic type parameter. -/
inductive TsType : Type where
  | str : TsType
  | num : TsType
  | boolean : TsType
  | voidT : TsType
  | undefinedT : TsType
  | anyT : TsType
  | errorT : TsType
  | regexpT : TsType
  | litFalse : TsType
  | litStr : String → TsType
  | named : String → TsType
  | tyvar : String → TsType
  | union : TsType → TsType → TsType
  | arrayT : TsType → TsType
  | recordT : TsType → TsType → TsType
  | promiseT : TsType → TsType
  | fnT : Params → TsType → TsType
  | objT : Fields → TsType

/-- A parameter list of a function type or signature.
`cons name optional rest ty tail`: `optional` is the `?` marker,
`rest` is the `...` marker. -/
inductive Params : Type where
  | nil : Params
  | cons : String → Bool → Bool → TsType → Params → Params

/-- The fields of an object type literal.
`fcons name optional ty tail`: `optional` is the `?` marker. -/
inductive Fields : Type where
  | fnil : Fields
  | fcons : String → Bool → TsType → Fields → Fields

end

/-- A declared call signature: generic type parameters (with optional
`extends` constraint), value parameters, and return type. -/
structure Sig where
  tparams : List (String × Option TsType)
  params : Params
  ret : TsType

/-- A member of a declared interface: either a method (with a call
signature) or a data property. -/
inductive Member : Type where
  | method : Sig → Member
  | property : Bool → TsType → Member

def Member.isMethod : Member → Bool
  | .method _ => true
  | .property _ _ => false

def Params.length : Params → Nat
  | .nil => 0
  | .cons _ _ _ _ tl => tl.length + 1

def Params.names : Params → List String
  | .nil => []
  | .cons n _ _ _ tl => n :: tl.names

def Params.types : Params → List TsType
  | .nil => []
  | .cons _ _ _ t tl => t :: tl.types

def Params.optionals : Params → List Bool
  | .nil => []
  | .cons _ o _ _ tl => o :: tl.optionals

/-- Does some parameter of the list have exactly the type `named s`? -/
def Params.hasParamOfNamed : Params → String → Bool
  | .nil, _ => false
  | .cons _ _ _ (.named m) tl, s => m == s || tl.hasParamOfNamed s
  | .cons _ _ _ _ tl, s => tl.hasParamOfNamed s

def Fields.names : Fields → List String
  | .fnil => []
  | .fcons n _ _ tl => n :: tl.names

def Fields.allTy (p : TsType → Bool) : Fields → Bool
  | .fnil => true
  | .fcons _ _ t tl => p t && tl.allTy p

def TsType.isVoid : TsType → Bool
  | .voidT => true
  | _ => false

def TsType.isNum : TsType → Bool
  | .num => true
  | _ => false

def TsType.isFn : TsType → Bool
  | .fnT _ _ => true
  | _ => false

/-- The key type of a `Record` type, when the type is one. -/
def TsType.recordKey : TsType → Option TsType
  | .recordT k _ => some k
  | _ => none

/-- The value type of a `Record` type, when the type is one. -/
def TsType.recordVal : TsType → Option TsType
  | .recordT _ v => some v
  | _ => none

/-- Flatten a (right-nested) union into the list of its alternatives. -/
def TsType.unionList : TsType → List TsType
  | .union a b => a.unionList ++ b.unionList
  | t => [t]

mutual

/-- Substitute the concrete type `t` for the type variable `v`. -/
def substTy (v : String) (t : TsType) : TsType → TsType
  | .tyvar n => if n == v then t else .tyvar n
  | .union a b => .union (substTy v t a) (substTy v t b)
  | .arrayT a => .arrayT (substTy v t a)
  | .recordT k w => .recordT (substTy v t k) (substTy v t w)
  | .promiseT a => .promiseT (substTy v t a)
  | .fnT ps r => .fnT (substParams v t ps) (substTy v t r)
  | .objT fs => .objT (substFields v t fs)
  | x => x

def substParams (v : String) (t : TsType) : Params → Params
  | .nil => .nil
  | .cons n o r ty tl => .cons n o r (substTy v t ty) (substParams v t tl)

def substFields (v : String) (t : TsType) : Fields → Fields
  | .fnil => .fnil
  | .fcons n o ty tl => .fcons n o (substTy v t ty) (substFields v t tl)

end

/-- Instantiate a generic signature at a concrete type for one of its
type parameters: the parameter is discharged and substituted
throughout the value parameters and the return type. -/
def instSig (v : String) (t : TsType) (s : Sig) : Sig :=
  { tparams := s.tparams.filter (fun p => p.1 ≠ v)
    params := substParams v t s.params
    ret := substTy v t s.ret }

/-
Declarations translated from src/types/newrelic/index.d.ts.
Each value below embeds one exported declaration of the file; union
alternatives and parameter order follow the source text.
-/

/-- The scalar attribute-value union used throughout the file:
`string | number | boolean`. -/
def scalarAttr : TsType := .union .str (.union .num .boolean)

/-- A string-keyed map of scalar attributes:
the index-signature object type `\x7b [key: string]: string | number | boolean \x7d`. -/
def attrMap : TsType := .recordT .str scalarAttr

/-- The rest-parameter function type `(...args: any[]) => T`. -/
def anyArgsFn (r : TsType) : TsType :=
  .fnT (.cons "args" false true (.arrayT .anyT) .nil) r

/-- Line 23: `export function getTransaction(): TransactionHandle;`. -/
def getTransaction : Sig :=
  { tparams := [], params := .nil, ret := .named "TransactionHandle" }

/-- Line 93: `export function noticeError(error: Error, expected?: boolean): void;`. -/
def noticeErrorSig1 : Sig :=
  { tparams := []
    params := .cons "error" false false .errorT
      (.cons "expected" true false .boolean .nil)
    ret := .voidT }

/-- Lines 102-106: the second `noticeError` overload with the optional
custom-attributes map before the optional expected flag. -/
def noticeErrorSig2 : Sig :=
  { tparams := []
    params := .cons "error" false false .errorT
      (.cons "customAttributes" true false attrMap
        (.cons "expected" true false .boolean .nil))
    ret := .voidT }

/-- The two declared overloads of `noticeError`, in source order. -/
def noticeError : List Sig := [noticeErrorSig1, noticeErrorSig2]

/-- Lines 114-123: `setErrorGroupCallback` takes a callback from an
error-metadata object to `string` and returns `void`. -/
def setErrorGroupCallback : Sig :=
  { tparams := []
    params := .cons "callback" false false
      (.fnT (.cons "metadata" false false
        (.objT (.fcons "customAttributes" false attrMap
          (.fcons "request.uri" false .str
            (.fcons "http.statusCode" false .str
              (.fcons "http.method" false .str
                (.fcons "error" true .errorT
                  (.fcons "error.expected" false .boolean .fnil)))))))
        .nil) .str)
      .nil
    ret := .voidT }

/-- Line 143: `export function recordLogEvent(logEvent: LogEvent): void;`. -/
def recordLogEvent : Sig :=
  { tparams := []
    params := .cons "logEvent" false false (.named "LogEvent") .nil
    ret := .voidT }

/-- Line 262: `startWebTransaction<T>(url: string, handle: Promise<T>): Promise<T>;`. -/
def startWebTransactionSig1 : Sig :=
  { tparams := [("T", none)]
    params := .cons "url" false false .str
      (.cons "handle" false false (.promiseT (.tyvar "T")) .nil)
    ret := .promiseT (.tyvar "T") }

/-- Line 263: `startWebTransaction<T>(url: string, handle: (...args: any[]) => T): T;`. -/
def startWebTransactionSig2 : Sig :=
  { tparams := [("T", none)]
    params := .cons "url" false false .str
      (.cons "handle" false false (anyArgsFn (.tyvar "T")) .nil)
    ret := .tyvar "T" }

/-- The two declared overloads of `startWebTransaction`, in source order. -/
def startWebTransaction : List Sig := [startWebTransactionSig1, startWebTransactionSig2]

/-- Line 293: `startBackgroundTransaction<T>(name: string, handle: Promise<T>): Promise<T>;`. -/
def startBackgroundTransactionSig1 : Sig :=
  { tparams := [("T", none)]
    params := .cons "name" false false .str
      (.cons "handle" false false (.promiseT (.tyvar "T")) .nil)
    ret := .promiseT (.tyvar "T") }

/-- Line 294: `startBackgroundTransaction<T>(name: string, handle: (...args: any[]) => T): T;`. -/
def startBackgroundTransactionSig2 : Sig :=
  { tparams := [("T", none)]
    params := .cons "name" false false .str
      (.cons "handle" false false (anyArgsFn (.tyvar "T")) .nil)
    ret := .tyvar "T" }

/-- Line 295: `startBackgroundTransaction<T>(name: string, group: string, handle: Promise<T>): Promise<T>;`. -/
def startBackgroundTransactionSig3 : Sig :=
  { tparams := [("T", none)]
    params := .cons "name" false false .str
      (.cons "group" false false .str
        (.cons "handle" false false (.promiseT (.tyvar "T")) .nil))
    ret := .promiseT (.tyvar "T") }

/-- Line 296: `startBackgroundTransaction<T>(name: string, group: string, handle: (...args: any[]) => T): T;`. -/
def startBackgroundTransactionSig4 : Sig :=
  { tparams := [("T", none)]
    params := .cons "name" false false .str
      (.cons "group" false false .str
        (.cons "handle" false false (anyArgsFn (.tyvar "T")) .nil))
    ret := .tyvar "T" }

/-- The four declared overloads of `startBackgroundTransaction`, in source order. -/
def startBackgroundTransaction : List Sig :=
  [startBackgroundTransactionSig1, startBackgroundTransactionSig2,
   startBackgroundTransactionSig3, startBackgroundTransactionSig4]

/-- Line 303: `export function endTransaction(): void;`. -/
def endTransaction : Sig :=
  { tparams := [], params := .nil, ret := .voidT }

/-- Line 318: `export function recordMetric(name: string, value: number | Metric): void;`. -/
def recordMetric : Sig :=
  { tparams := []
    params := .cons "name" false false .str
      (.cons "value" false false (.union .num (.named "Metric")) .nil)
    ret := .voidT }

/-- Line 325: `export function incrementMetric(name: string, value?: number): void;`. -/
def incrementMetric : Sig :=
  { tparams := []
    params := .cons "name" false false .str
      (.cons "value" true false .num .nil)
    ret := .voidT }

/-- Lines 333-336: `recordCustomEvent(eventType, attributes): undefined | false;`;
its attributes map allows `boolean | number | string` values. -/
def recordCustomEvent : Sig :=
  { tparams := []
    params := .cons "eventType" false false .str
      (.cons "attributes" false false
        (.recordT .str (.union .boolean (.union .num .str))) .nil)
    ret := .union .undefinedT .litFalse }

/-- Line 424: `setLambdaHandler<T extends (...args: any[]) => any>(handler: T): T;`. -/
def setLambdaHandler : Sig :=
  { tparams := [("T", some (anyArgsFn .anyT))]
    params := .cons "handler" false false (.tyvar "T") .nil
    ret := .tyvar "T" }

/-- Lines 436-442: `export interface Metric`, as its field list. -/
def Metric : Fields :=
  .fcons "count" false .num
    (.fcons "total" false .num
      (.fcons "min" false .num
        (.fcons "max" false .num
          (.fcons "sumOfSquares" false .num .fnil))))

/-- Line 456:
`export type DistributedTraceHeaders = Record<string, number | string | string[] | undefined>;`. -/
def DistributedTraceHeaders : TsType :=
  .recordT .str (.union .num (.union .str (.union (.arrayT .str) .undefinedT)))

/-- Line 462: the `end(callback?: () => any): void` method of `TransactionHandle`. -/
def TransactionHandle.endMethod : Sig :=
  { tparams := []
    params := .cons "callback" true false (.fnT .nil .anyT) .nil
    ret := .voidT }

/-- Line 467: the `ignore(): void` method of `TransactionHandle`. -/
def TransactionHandle.ignore : Sig :=
  { tparams := [], params := .nil, ret := .voidT }

/-- Line 473: the `insertDistributedTraceHeaders(headers: DistributedTraceHeaders): void`
method of `TransactionHandle`. -/
def TransactionHandle.insertDistributedTraceHeaders : Sig :=
  { tparams := []
    params := .cons "headers" false false (.named "DistributedTraceHeaders") .nil
    ret := .voidT }

/-- Line 485: the
`acceptDistributedTraceHeaders(transportType: string, headers: DistributedTraceHeaders): void`
method of `TransactionHandle`. -/
def TransactionHandle.acceptDistributedTraceHeaders : Sig :=
  { tparams := []
    params := .cons "transportType" false false .str
      (.cons "headers" false false (.named "DistributedTraceHeaders") .nil)
    ret := .voidT }

/-- Line 490: the `isSampled(): boolean` method of `TransactionHandle`. -/
def TransactionHandle.isSampled : Sig :=
  { tparams := [], params := .nil, ret := .boolean }

/-- Lines 458-491: `export interface TransactionHandle`, as its member
list in source order.  Every member of the interface is a method. -/
def TransactionHandle : List (String × Member) :=
  [("end", .method TransactionHandle.endMethod),
   ("ignore", .method TransactionHandle.ignore),
   ("insertDistributedTraceHeaders", .method TransactionHandle.insertDistributedTraceHeaders),
   ("acceptDistributedTraceHeaders", .method TransactionHandle.acceptDistributedTraceHeaders),
   ("isSampled", .method TransactionHandle.isSampled)]

/-- Lines 568-571:
`withLlmCustomAttributes<T>(attrs: Record<string, number | string | boolean>, cb: (...args: any[]) => T): T;`. -/
def withLlmCustomAttributes : Sig :=
  { tparams := [("T", none)]
    params := .cons "attrs" false false
      (.recordT .str (.union .num (.union .str .boolean)))
      (.cons "cb" false false (anyArgsFn (.tyvar "T")) .nil)
    ret := .tyvar "T" }

/-- Lines 579-581: `setLlmTokenCountCallback<T>(cb: (...args: any[]) => T): T;`. -/
def setLlmTokenCountCallback : Sig :=
  { tparams := [("T", none)]
    params := .cons "cb" false false (anyArgsFn (.tyvar "T")) .nil
    ret := .tyvar "T" }

/-- Does the signature take exactly three parameters, the middle one a
string parameter named `group` sitting between the first parameter and
the handler? -/
def Sig.hasGroupBetween (s : Sig) : Bool :=
  match s.params with
  | .cons _ _ _ _ (.cons n _ _ .str (.cons _ _ _ _ .nil)) => n == "group"
  | _ => false

/-- The event- and metric-recording functions declared by the file,
with their signatures (lines 143, 318, 325, 333-336). -/
def eventRecordingFunctions : List (String × Sig) :=
  [("recordLogEvent", recordLogEvent),
   ("recordMetric", recordMetric),
   ("incrementMetric", incrementMetric),
   ("recordCustomEvent", recordCustomEvent)]

/-- The callback-registration functions declared by the file, with
their signatures (lines 114-123 and 579-581). -/
def callbackRegistrationFunctions : List (String × Sig) :=
  [("setErrorGroupCallback", setErrorGroupCallback),
   ("setLlmTokenCountCallback", setLlmTokenCountCallback)]

/-- C1: the `TransactionHandle` interface declares exactly the five
capabilities `end`, `ignore`, `insertDistributedTraceHeaders`,
`acceptDistributedTraceHeaders` and `isSampled`, in that order, each
of them a method; and `getTransaction()` is declared with no
parameters and return type `TransactionHandle`. -/
theorem transactionHandle_five_capabilities :
    List.map Prod.fst TransactionHandle =
      ["end", "ignore", "insertDistributedTraceHeaders",
       "acceptDistributedTraceHeaders", "isSampled"] ∧
    List.all TransactionHandle (fun m => m.2.isMethod) = true ∧
    getTransaction.params = .nil ∧
    getTransaction.ret = .named "TransactionHandle" :=
  ⟨rfl, rfl, rfl, rfl⟩

/-- C2 counterexample: contrary to the claim, the declared signature of
`endTransaction` does not accept a `TransactionHandle` argument - it
takes no parameters at all. -/
theorem endTransaction_takes_no_handle :
    Params.hasParamOfNamed endTransaction.params "TransactionHandle" = false ∧
    Params.length endTransaction.params = 0 :=
  ⟨rfl, rfl⟩

/-- C2 amended: `endTransaction` is declared with no parameters and
return type `void` (it ends the active transaction implicitly by
context); the `TransactionHandle` returned by `getTransaction()` is
instead ended through the handle's own `end()` method, which the
interface declares. -/
theorem endTransaction_contextual_handle_has_end :
    endTransaction.params = .nil ∧
    endTransaction.ret = .voidT ∧
    getTransaction.ret = .named "TransactionHandle" ∧
    ("end", Member.method TransactionHandle.endMethod) ∈ TransactionHandle ∧
    TransactionHandle.endMethod.ret = .voidT :=
  ⟨rfl, rfl, rfl, List.Mem.head _, rfl⟩

/-- C3 counterexample: contrary to the claim, `startWebTransaction`
declares no overload with a `group` argument between the name and the
handler - none of its overloads has three parameters. -/
theorem startWebTransaction_no_group_overload :
    List.any startWebTransaction Sig.hasGroupBetween = false ∧
    List.all startWebTransaction (fun s => Params.length s.params == 2) = true :=
  ⟨rfl, rfl⟩

/-- C3 amended: only `startBackgroundTransaction` declares, in addition
to its two-parameter `(name, handler)` overloads, overloads taking a
`group` argument between the name and the handler (the `group`
parameter is required within those overloads); `startWebTransaction`
declares only two-parameter `(name, handler)` overloads. -/
theorem group_overload_only_on_background :
    List.any startBackgroundTransaction Sig.hasGroupBetween = true ∧
    List.any startBackgroundTransaction (fun s => Params.length s.params == 2) = true ∧
    List.any startWebTransaction Sig.hasGroupBetween = false ∧
    List.all startWebTransaction (fun s => Params.length s.params == 2) = true ∧
    Params.names startBackgroundTransactionSig4.params = ["name", "group", "handle"] ∧
    Params.optionals startBackgroundTransactionSig4.params = [false, false, false] :=
  ⟨rfl, rfl, rfl, rfl, rfl, rfl⟩

/-- C4: the `Metric` interface is a record with exactly the five fields
`count`, `total`, `min`, `max` and `sumOfSquares`, all of type
`number`, and the `value` parameter of `recordMetric` has type
`number | Metric`. -/
theorem metric_record_shape :
    Fields.names Metric = ["count", "total", "min", "max", "sumOfSquares"] ∧
    Fields.allTy TsType.isNum Metric = true ∧
    Params.names recordMetric.params = ["name", "value"] ∧
    Params.types recordMetric.params = [.str, .union .num (.named "Metric")] ∧
    recordMetric.ret = .voidT :=
  ⟨rfl, rfl, rfl, rfl, rfl⟩

/-- C5: `DistributedTraceHeaders` maps string header names to values of
type `number`, `string`, `string[]` or `undefined`, and
`TransactionHandle#insertDistributedTraceHeaders` takes exactly one
parameter of that type and returns `void` (so at the declared level it
communicates only by mutating the passed-in map). -/
theorem distributedTraceHeaders_insert_in_place :
    TsType.recordKey DistributedTraceHeaders = some .str ∧
    Option.map TsType.unionList (TsType.recordVal DistributedTraceHeaders) =
      some [.num, .str, .arrayT .str, .undefinedT] ∧
    Params.types TransactionHandle.insertDistributedTraceHeaders.params =
      [.named "DistributedTraceHeaders"] ∧
    TransactionHandle.insertDistributedTraceHeaders.ret = .voidT :=
  ⟨rfl, rfl, rfl, rfl⟩

/-- C6: `setLambdaHandler` preserves the handler's signature: its single
type parameter `T` is constrained to function types, and instantiating
the signature at any type `t` yields a declaration taking a handler of
type `t` and returning that same type `t`. -/
theorem setLambdaHandler_preserves_signature :
    setLambdaHandler.tparams = [("T", some (anyArgsFn .anyT))] ∧
    ∀ t : TsType,
      Params.types (instSig "T" t setLambdaHandler).params = [t] ∧
      (instSig "T" t setLambdaHandler).ret = t := by
  refine ⟨rfl, fun t => ⟨?_, ?_⟩⟩ <;>
    simp [instSig, setLambdaHandler, substParams, substTy, Params.types]

/-- C7: `withLlmCustomAttributes(attrs, cb)` is declared to return the
callback's result type: instantiating its type parameter `T` at any
type `t` yields a signature whose `cb` parameter returns `t` and whose
own return type is that same `t`. -/
theorem withLlmCustomAttributes_returns_cb_result :
    ∀ t : TsType,
      Params.types (instSig "T" t withLlmCustomAttributes).params =
        [.recordT .str (.union .num (.union .str .boolean)), anyArgsFn t] ∧
      (instSig "T" t withLlmCustomAttributes).ret = t := by
  intro t
  refine ⟨?_, ?_⟩ <;>
    simp [instSig, withLlmCustomAttributes, substParams, substTy, Params.types,
      anyArgsFn]

/-- C8: `noticeError` is declared with exactly two overloads, both
returning `void`: `(error: Error, expected?: boolean)` and
`(error: Error, customAttributes?: string-keyed map of scalar values,
expected?: boolean)`. -/
theorem noticeError_two_overloads :
    noticeError = [noticeErrorSig1, noticeErrorSig2] ∧
    Params.names noticeErrorSig1.params = ["error", "expected"] ∧
    Params.types noticeErrorSig1.params = [.errorT, .boolean] ∧
    Params.optionals noticeErrorSig1.params = [false, true] ∧
    noticeErrorSig1.ret = .voidT ∧
    Params.names noticeErrorSig2.params = ["error", "customAttributes", "expected"] ∧
    Params.types noticeErrorSig2.params = [.errorT, attrMap, .boolean] ∧
    Params.optionals noticeErrorSig2.params = [false, true, true] ∧
    noticeErrorSig2.ret = .voidT ∧
    TsType.recordKey attrMap = some .str ∧
    Option.map TsType.unionList (TsType.recordVal attrMap) =
      some [.str, .num, .boolean] :=
  ⟨rfl, rfl, rfl, rfl, rfl, rfl, rfl, rfl, rfl, rfl, rfl⟩

/-- C9: among the event- and metric-recording functions of the file,
`recordCustomEvent` is the only one whose declared return type is not
`void`; its return type is `undefined | false`, so the caller can
observe `false`. -/
theorem recordCustomEvent_only_nonvoid_recorder :
    List.map Prod.fst
      (List.filter (fun f => !(TsType.isVoid f.2.ret)) eventRecordingFunctions) =
      ["recordCustomEvent"] ∧
    recordCustomEvent.ret = .union .undefinedT .litFalse :=
  ⟨rfl, rfl⟩

/-- C10: `setLlmTokenCountCallback` is declared to return `T`, the
return type of the registered callback (instantiating `T` at any type
`t`, the `cb` parameter returns `t` and so does the function), whereas
`setErrorGroupCallback` returns `void`; among the file's
callback-registration functions it is the only non-void one. -/
theorem setLlmTokenCountCallback_returns_T :
    (∀ t : TsType,
      Params.types (instSig "T" t setLlmTokenCountCallback).params = [anyArgsFn t] ∧
      (instSig "T" t setLlmTokenCountCallback).ret = t) ∧
    setErrorGroupCallback.ret = .voidT ∧
    List.map Prod.fst
      (List.filter (fun f => !(TsType.isVoid f.2.ret)) callbackRegistrationFunctions) =
      ["setLlmTokenCountCallback"] := by
  refine ⟨fun t => ⟨?_, ?_⟩, rfl, rfl⟩ <;>
    simp [instSig, setLlmTokenCountCallback, substParams, substTy, Params.types,
      anyArgsFn]

end NewRelic
